import Mathlib

/-!
Shallow embedding of the `mysql_async_support` repository
(crates `mysql_async_support_model` and `mysql_async_support_rt`).

Pure data types are translated directly from the model crate.  The
runtime crate's asynchronous operations interact with the network
(SSH sessions, tunnels, MySQL connections); those interactions are
modelled by explicit environment records that fix the outcome of every
external call, and each runtime function is translated as a pure
function of its inputs and such an environment.  Streams built with
`then`/`map` + `buffered(n)` + `fold` yield their items in the order of
the underlying iterator, so they are translated as ordered folds.
-/

namespace MysqlAsyncSupport

/-- Credentials to access a database schema
(`mysql_async_support_model/src/db_schema_cred.rs`). -/
structure DbSchemaCred where
  schema_name : Option String
  username : String
  password : String
deriving DecidableEq

/-- An entity for which to run a query
(`mysql_async_support_model/src/query_target.rs`).  The `HostAddress`
of the database server is modelled as a plain string. -/
structure QueryTarget where
  name : String
  db_address : String
  db_schema_cred : DbSchemaCred
deriving DecidableEq

/-- Error enum of `mysql_async_support_model/src/error.rs`.  Underlying
`mysql_async::Error` and `ssh_jumper::model::Error` payloads are opaque
to this crate and are modelled as numeric codes; the jump host address
inside `SshTunnelNotFound` is modelled as a string. -/
inductive Error where
  | poolConstraintsInitialize
  | mySqlConnectionRetrieve (e : Nat)
  | mySqlPrepare (e : Nat)
  | mySqlExecute (e : Nat)
  | queryResultSetFetch (e : Nat)
  | mySqlPoolDisconnect (e : Nat)
  | sshConnInit
  | sshTunnelNotFound (jump_host_address : String) (query_target : QueryTarget)
  | sshJumper (e : Nat)
deriving DecidableEq

/-- Message, warning count, and result values for a single statement
(`mysql_async_support_model/src/result_set.rs`). -/
structure ResultSet (T : Type) where
  affected_rows : Nat
  warning_count : Nat
  info : String
  values : List T
deriving DecidableEq

/-- Query target name and result sets
(`mysql_async_support_model/src/query_result.rs`). -/
structure QueryResult (T : Type) where
  name : String
  result_sets : List (ResultSet T)
deriving DecidableEq

/-- Query target name and error
(`mysql_async_support_model/src/query_error.rs`). -/
structure QueryError where
  name : String
  error : Error
deriving DecidableEq

/-! ### Slice chunking

`query_multi` and `exec_multi` call `query_targets.chunks(n)`
(`std::slice::chunks`), which yields consecutive sub-slices of length
at most `n` (the last one may be shorter) and panics when `n == 0`.
The panic is modelled by returning `none`. -/

/-- Chunks of size `n + 1`: the head chunk takes the first element plus
up to `n` more, then the rest is chunked the same way. -/
def chunksGo (n : Nat) : List α → List (List α)
  | [] => []
  | x :: xs => (x :: xs.take n) :: chunksGo n (xs.drop n)
termination_by l => l.length
decreasing_by
  simp only [List.length_drop, List.length_cons]
  omega

/-- `slice::chunks(chunk_size)`: `none` models the panic on a zero
chunk size. -/
def chunks (chunk_size : Nat) (l : List α) : Option (List (List α)) :=
  match chunk_size with
  | 0 => none
  | n + 1 => some (chunksGo n l)

@[simp] theorem chunksGo_nil (n : Nat) : chunksGo n ([] : List α) = [] := by
  rw [chunksGo]

@[simp] theorem chunksGo_cons (n : Nat) (x : α) (xs : List α) :
    chunksGo n (x :: xs) = (x :: xs.take n) :: chunksGo n (xs.drop n) := by
  rw [chunksGo]

theorem chunksGo_flatten (n : Nat) (l : List α) : (chunksGo n l).flatten = l := by
  induction l using chunksGo.induct n with
  | case1 => simp [chunksGo]
  | case2 x xs ih =>
      rw [chunksGo]
      simp only [List.flatten_cons, List.cons_append, ih, List.take_append_drop]

/-! ### Hash map model

`HashMap<&str, SocketAddr>` is modelled as an association list where
insertion prepends (the most recent binding wins on lookup) and lookup
scans from the front.  `SocketAddr` is modelled as a numeric code. -/

/-- `HashMap::insert`. -/
def mapInsert (m : List (String × Nat)) (k : String) (v : Nat) :
    List (String × Nat) :=
  (k, v) :: m

/-- `HashMap::get`. -/
def mapGet (m : List (String × Nat)) (k : String) : Option Nat :=
  (m.find? (fun p => p.1 == k)).map Prod.snd

theorem mapGet_mapInsert_self (m : List (String × Nat)) (k : String) (v : Nat) :
    mapGet (mapInsert m k v) k = some v := by
  simp [mapGet, mapInsert, List.find?]

theorem mapGet_mapInsert_isSome (m : List (String × Nat)) (k k' : String) (v : Nat)
    (h : (mapGet m k').isSome = true) :
    (mapGet (mapInsert m k v) k').isSome = true := by
  by_cases hk : k = k'
  · subst hk; simp [mapGet_mapInsert_self]
  · simp only [mapGet, mapInsert, List.find?] at h ⊢
    have : ((k, v).1 == k') = false := by
      simp only [beq_eq_false_iff_ne, ne_eq]
      exact hk
    rw [this]
    exact h

/-! ### Partition fold

Both `query_over_tunnels` and `exec_over_tunnels` fold a stream of
per-target `Result`s into a pair of vectors, pushing `Ok` payloads into
the first and `Err` payloads into the second. -/

/-- The `fold((Vec::new(), Vec::new()), ..)` at the end of
`query_over_tunnels` / `exec_over_tunnels`. -/
def partitionFold (outs : List (Except ε α)) : List α × List ε :=
  outs.foldl
    (fun acc r =>
      match r with
      | .ok a => (acc.1 ++ [a], acc.2)
      | .error e => (acc.1, acc.2 ++ [e]))
    ([], [])

/-- Successful payloads of a list of `Result`s, in order. -/
def exceptOks (outs : List (Except ε α)) : List α :=
  outs.filterMap (fun r => match r with | .ok a => some a | .error _ => none)

/-- Error payloads of a list of `Result`s, in order. -/
def exceptErrs (outs : List (Except ε α)) : List ε :=
  outs.filterMap (fun r => match r with | .ok _ => none | .error e => some e)

theorem partitionFold_from (outs : List (Except ε α)) :
    ∀ (a : List α) (b : List ε),
      outs.foldl
        (fun acc r =>
          match r with
          | .ok x => (acc.1 ++ [x], acc.2)
          | .error e => (acc.1, acc.2 ++ [e]))
        (a, b) = (a ++ exceptOks outs, b ++ exceptErrs outs) := by
  induction outs with
  | nil => intro a b; simp [exceptOks, exceptErrs]
  | cons r rest ih =>
      intro a b
      cases r with
      | ok x =>
          simp only [List.foldl_cons, ih, exceptOks, exceptErrs, List.filterMap_cons]
          simp
      | error e =>
          simp only [List.foldl_cons, ih, exceptOks, exceptErrs, List.filterMap_cons]
          simp

theorem partitionFold_eq (outs : List (Except ε α)) :
    partitionFold outs = (exceptOks outs, exceptErrs outs) := by
  simpa using partitionFold_from outs [] []

/-- Name of either side of a partitioned outcome, given name
projections for the two sides. -/
def exceptName (f : α → String) (g : ε → String) : Except ε α → String
  | .ok a => f a
  | .error e => g e

/-- The multiset of names contributed by a partitioned outcome list. -/
theorem exceptOks_errs_map (outs : List (Except ε α)) (f : α → String) (g : ε → String) :
    ((exceptOks outs).map f : Multiset String) + ((exceptErrs outs).map g : Multiset String) =
      (outs.map (exceptName f g) : Multiset String) := by
  induction outs with
  | nil => simp [exceptOks, exceptErrs]
  | cons r rest ih =>
      cases r with
      | ok a =>
          simp only [exceptOks, exceptErrs, List.filterMap_cons] at ih ⊢
          simp only [List.map_cons, exceptName, ← Multiset.cons_coe, Multiset.cons_add]
          rw [ih]
      | error e =>
          simp only [exceptOks, exceptErrs, List.filterMap_cons] at ih ⊢
          simp only [List.map_cons, exceptName, ← Multiset.cons_coe, Multiset.add_cons]
          rw [ih]

/-! ### SshTunnelManager
(`mysql_async_support_rt/src/ssh_tunnel_manager.rs`)

`prepare_tunnels` opens one SSH session to the jump host, then
`try_fold`s over the chunk's query targets, opening one direct channel
(local forwarding endpoint) per target and inserting it into the name
to tunnel map; any failure is propagated with `?`.  The network
behaviour is fixed by a `TunnelEnv`: the outcome of
`SshJumper::open_ssh_session` and, per target, the outcome of
`SshJumper::open_direct_channel` (error payloads are `ssh_jumper`
errors, modelled as numeric codes, converted to `Error::SshJumper` by
the `From` impl used by `?`). -/

/-- Outcomes of the SSH-level calls made by `prepare_tunnels`. -/
structure TunnelEnv where
  session_result : Except Nat Unit
  channel : QueryTarget → Except Nat Nat

/-- The `try_fold` inside `prepare_tunnels`. -/
def tunnelsFold (env : TunnelEnv) :
    List QueryTarget → List (String × Nat) → Except Error (List (String × Nat))
  | [], acc => .ok acc
  | qt :: rest, acc =>
    match env.channel qt with
    | .error e => .error (.sshJumper e)
    | .ok tun => tunnelsFold env rest (mapInsert acc qt.name tun)

/-- `SshTunnelManager::prepare_tunnels`, returning the
`qt_name_to_tunnel` map of the `SshTunnelMap` on success. -/
def prepare_tunnels (env : TunnelEnv) (query_targets : List QueryTarget) :
    Except Error (List (String × Nat)) :=
  match env.session_result with
  | .error e => .error (.sshJumper e)
  | .ok _ => tunnelsFold env query_targets []

theorem tunnelsFold_isOk (env : TunnelEnv) (ts : List QueryTarget) :
    ∀ acc, (tunnelsFold env ts acc).isOk = true ↔
      ∀ t ∈ ts, (env.channel t).isOk = true := by
  induction ts with
  | nil => intro acc; simp [tunnelsFold, Except.isOk, Except.toBool]
  | cons qt rest ih =>
      intro acc
      simp only [tunnelsFold]
      cases hc : env.channel qt with
      | error e =>
          simp only [Except.isOk, Except.toBool]
          constructor
          · intro h; cases h
          · intro h
            have := h qt (by simp)
            rw [hc] at this
            cases this
      | ok tun =>
          rw [ih]
          constructor
          · intro h t ht
            rcases List.mem_cons.mp ht with rfl | ht'
            · rw [hc]; rfl
            · exact h t ht'
          · intro h t ht
            exact h t (List.mem_cons_of_mem _ ht)

theorem tunnelsFold_complete (env : TunnelEnv) (ts : List QueryTarget) :
    ∀ acc m, tunnelsFold env ts acc = .ok m →
      (∀ k, (mapGet acc k).isSome = true → (mapGet m k).isSome = true) ∧
      (∀ t ∈ ts, (mapGet m t.name).isSome = true) := by
  induction ts with
  | nil =>
      intro acc m h
      simp only [tunnelsFold] at h
      cases h
      exact ⟨fun k hk => hk, by simp⟩
  | cons qt rest ih =>
      intro acc m h
      simp only [tunnelsFold] at h
      cases hc : env.channel qt with
      | error e => rw [hc] at h; cases h
      | ok tun =>
          rw [hc] at h
          obtain ⟨hpres, hmem⟩ := ih (mapInsert acc qt.name tun) m h
          refine ⟨fun k hk => hpres k (mapGet_mapInsert_isSome acc qt.name k tun hk), ?_⟩
          intro t ht
          rcases List.mem_cons.mp ht with rfl | ht'
          · exact hpres t.name (by rw [mapGet_mapInsert_self]; rfl)
          · exact hmem t ht'

/-! ### SqlOverSsh
(`mysql_async_support_rt/src/sql_over_ssh.rs`)

`execute` builds a pool via `db_pool_initialize` (short-circuiting with
`?`), hands the pool to the caller-supplied operation which returns
`(pool, result)`, then attempts `pool.disconnect()` whose error is
propagated with `?` (as `Error::MySqlPoolDisconnect`) before `result?`
is consulted.  Pools are modelled as numeric handles; the operation and
the disconnect outcome are fixed by an `ExecEnv`. -/

/-- Outcomes of the calls made by `SqlOverSsh::execute`.  `op` is the
caller-supplied `queries.call`, returning the pool it was given
together with the operation's result. -/
structure ExecEnv (O : Type) where
  pool_init : Except Error Nat
  op : Nat → Nat × Except Error O
  disconnect : Nat → Except Nat Unit

/-- `SqlOverSsh::execute`. -/
def execute (env : ExecEnv O) : Except Error O :=
  match env.pool_init with
  | .error e => .error e
  | .ok pool =>
    match env.op pool with
    | (pool2, result) =>
      match env.disconnect pool2 with
      | .error e => .error (.mySqlPoolDisconnect e)
      | .ok _ =>
        match result with
        | .error e => .error e
        | .ok data => .ok data

/-- `execute` instrumented with how many times the caller-supplied
operation was invoked and how many disconnect attempts were made. -/
structure ExecTraceResult (O : Type) where
  result : Except Error O
  op_calls : Nat
  disconnect_attempts : Nat

/-- `SqlOverSsh::execute` with call counters: each control path of the
source performs the operation call and the disconnect attempt exactly
as counted here. -/
def executeTrace (env : ExecEnv O) : ExecTraceResult O :=
  match env.pool_init with
  | .error e => ⟨.error e, 0, 0⟩
  | .ok pool =>
    match env.op pool with
    | (pool2, result) =>
      match env.disconnect pool2 with
      | .error e => ⟨.error (.mySqlPoolDisconnect e), 1, 1⟩
      | .ok _ =>
        match result with
        | .error e => ⟨.error e, 1, 1⟩
        | .ok data => ⟨.ok data, 1, 1⟩

/-- `mysql_async::PoolConstraints::new`, modelled from the driver's
documented contract: `Some` exactly when `min <= max` with a positive
maximum. -/
def poolConstraintsNew (pc_min pc_max : Nat) : Option (Nat × Nat) :=
  if pc_min ≤ pc_max ∧ 0 < pc_max then some (pc_min, pc_max) else none

/-- The `Opts` assembled by `db_pool_initialize` via `OptsBuilder`. -/
structure DbOpts where
  ip_or_hostname : String
  tcp_port : Nat
  db_name : Option String
  user : String
  pass : String
  pool_constraints : Nat × Nat
deriving DecidableEq

/-- `SqlOverSsh::db_pool_initialize`: opens a tunnel (outcome given by
`open_tunnel`, an `ssh_jumper` result yielding the local socket address
as ip string and port), then builds pool options with
`PoolConstraints::new(1, 10)`, mapping a `None` constraint to
`Error::PoolConstraintsInitialize`. -/
def db_pool_opts_init (open_tunnel : Except Nat (String × Nat))
    (db_schema_cred : DbSchemaCred) : Except Error DbOpts :=
  match open_tunnel with
  | .error e => .error (.sshJumper e)
  | .ok (ip, port) =>
    match poolConstraintsNew 1 10 with
    | none => .error .poolConstraintsInitialize
    | some c =>
      .ok ⟨ip, port, db_schema_cred.schema_name, db_schema_cred.username,
        db_schema_cred.password, c⟩

/-! ### QueryRunner
(`mysql_async_support_rt/src/query_runner.rs`) -/

/-- Connection limits of `QueryRunner` (the `sql_over_ssh` field is a
unit struct and is omitted). -/
structure QueryRunner where
  ssh_concurrent_limit : Nat
  tunnels_per_ssh_connection : Nat
deriving DecidableEq

/-- `QueryRunner::SSH_CONCURRENT_LIMIT_DEFAULT`. -/
def QueryRunner.SSH_CONCURRENT_LIMIT_DEFAULT : Nat := 20

/-- `QueryRunner::TUNNELS_PER_SSH_CONNECTION_DEFAULT`. -/
def QueryRunner.TUNNELS_PER_SSH_CONNECTION_DEFAULT : Nat := 3

/-- `QueryRunner::new`: stores the given limits unchecked. -/
def QueryRunner.new (ssh_concurrent_limit tunnels_per_ssh_connection : Nat) :
    QueryRunner :=
  ⟨ssh_concurrent_limit, tunnels_per_ssh_connection⟩

/-- `QueryRunner::default`. -/
def QueryRunner.default : QueryRunner :=
  QueryRunner.new QueryRunner.SSH_CONCURRENT_LIMIT_DEFAULT
    QueryRunner.TUNNELS_PER_SSH_CONNECTION_DEFAULT

/-- Outcomes of the external calls made by `query_multi`: per chunk,
the SSH-level behaviour seen by `prepare_tunnels`, and per target, the
outcome of the `sql_over_ssh.exec` round trip (`query_run`), whose
success payload is the list of fetched result sets (the `QueryResult`
name is always set to the target's name by `query_result_fetch`). -/
structure QueryEnv (T : Type) where
  tunnelEnv : List QueryTarget → TunnelEnv
  exec : QueryTarget → Nat → String → Except Error (List (ResultSet T))

/-- The per-target future built inside `query_over_tunnels`: look the
target's name up in `qt_name_to_tunnel` (a missing entry yields
`Error::SshTunnelNotFound`), then run the query over the tunnel. -/
def queryOutcome (env : QueryEnv T) (jump_host_address sql_text : String)
    (qt_name_to_tunnel : List (String × Nat)) (query_target : QueryTarget) :
    Except QueryError (QueryResult T) :=
  match mapGet qt_name_to_tunnel query_target.name with
  | none =>
    .error ⟨query_target.name, .sshTunnelNotFound jump_host_address query_target⟩
  | some db_tunnel =>
    match env.exec query_target db_tunnel sql_text with
    | .ok result_sets => .ok ⟨query_target.name, result_sets⟩
    | .error e => .error ⟨query_target.name, e⟩

/-- `QueryRunner::query_over_tunnels`: map each target of the chunk to
its outcome (`buffered` preserves stream order), then fold the
outcomes into `(query_results, query_errors)`. -/
def query_over_tunnels (env : QueryEnv T) (jump_host_address sql_text : String)
    (query_targets : List QueryTarget) (qt_name_to_tunnel : List (String × Nat)) :
    List (QueryResult T) × List QueryError :=
  partitionFold
    (query_targets.map (queryOutcome env jump_host_address sql_text qt_name_to_tunnel))

/-- The error arm of `query_multi`'s per-chunk match: iterate over the
chunk with `error.take().unwrap_or(Error::SshConnInit)`, so the first
target receives the actual tunnel error and every later target
receives `Error::SshConnInit`. -/
def chunkErrors (e : Error) : List QueryTarget → List QueryError
  | [] => []
  | qt :: rest => ⟨qt.name, e⟩ :: rest.map (fun q => ⟨q.name, Error.sshConnInit⟩)

/-- The per-chunk future of `query_multi`: open the chunk's tunnels and
either query over them or turn the whole chunk into errors. -/
def query_chunk (env : QueryEnv T) (jump_host_address sql_text : String)
    (query_targets_chunk : List QueryTarget) :
    List (QueryResult T) × List QueryError :=
  match prepare_tunnels (env.tunnelEnv query_targets_chunk) query_targets_chunk with
  | .ok qt_name_to_tunnel =>
    query_over_tunnels env jump_host_address sql_text query_targets_chunk qt_name_to_tunnel
  | .error e => ([], chunkErrors e query_targets_chunk)

/-- The final `fold` of `query_multi` / `exec_multi`: extend the
aggregate result and error vectors with each chunk's contribution, in
stream order. -/
def aggregateFold (f : γ → List α × List ε) (cs : List γ) : List α × List ε :=
  cs.foldl (fun acc c => (acc.1 ++ (f c).1, acc.2 ++ (f c).2)) ([], [])

/-- `QueryRunner::query_multi`: chunk the targets by
`tunnels_per_ssh_connection` (`none` models the `slice::chunks` panic
on `0`), process each chunk, and fold the chunk outcomes together. -/
def query_multi (env : QueryEnv T) (jump_host_address sql_text : String)
    (query_targets : List QueryTarget) (tunnels_per_ssh_connection : Nat) :
    Option (List (QueryResult T) × List QueryError) :=
  (chunks tunnels_per_ssh_connection query_targets).map
    (fun cs => aggregateFold (query_chunk env jump_host_address sql_text) cs)

/-- Number of `SshTunnelManager::prepare_tunnels` calls performed by
`query_multi`: one per chunk (the `then` on the chunk stream). -/
def sessionOpenCount (tunnels_per_ssh_connection : Nat)
    (query_targets : List QueryTarget) : Option Nat :=
  (chunks tunnels_per_ssh_connection query_targets).map List.length

/-! #### Result assembly (`query_result_fetch`) -/

/-- One pending result set of a `mysql_async::QueryResult` handle: the
outcome of `collect::<T>()` for that set together with the
`affected_rows` / `warnings` / `info` metadata read after collecting. -/
structure PendingResultSet (T : Type) where
  collect : Except Nat (List T)
  affected_rows : Nat
  warning_count : Nat
  info : String

/-- The `while !query_result.is_empty()` loop of `query_result_fetch`:
collect each pending result set in order, pushing a `ResultSet` per
set, aborting with `Error::QueryResultSetFetch` on a decode failure. -/
def fetchLoop : List (PendingResultSet T) → List (ResultSet T) →
    Except Error (List (ResultSet T))
  | [], result_sets => .ok result_sets
  | p :: rest, result_sets =>
    match p.collect with
    | .error e => .error (.queryResultSetFetch e)
    | .ok values =>
      fetchLoop rest (result_sets ++ [⟨p.affected_rows, p.warning_count, p.info, values⟩])

/-- `QueryRunner::query_result_fetch`. -/
def query_result_fetch (query_target_name : String)
    (pending : List (PendingResultSet T)) : Except Error (QueryResult T) :=
  match fetchLoop pending [] with
  | .error e => .error e
  | .ok result_sets => .ok ⟨query_target_name, result_sets⟩

/-- The `ResultSet` assembled from a pending set whose collect
succeeded (`getD` is only consulted off the success path). -/
def collectedResultSet (p : PendingResultSet T) : ResultSet T :=
  ⟨p.affected_rows, p.warning_count, p.info, p.collect.toOption.getD []⟩

/-! #### exec_multi (`exec_multi` / `exec_over_tunnels`) -/

/-- Outcomes of the external calls made by `exec_multi`: per chunk the
SSH behaviour, and per target the outcome of
`sql_over_ssh.exec(db_tunnel, cred, queries)` with caller-defined
output type `O` (its error type is taken to be `Error` itself, i.e.
`From` is the identity). -/
structure ExecQEnv (O : Type) where
  tunnelEnv : List QueryTarget → TunnelEnv
  exec_q : QueryTarget → Nat → Except Error O

/-- The per-target future built inside `exec_over_tunnels`: both
outcomes are tagged with a reference to the target. -/
def execOutcome (env : ExecQEnv O) (jump_host_address : String)
    (qt_name_to_tunnel : List (String × Nat)) (query_target : QueryTarget) :
    Except (QueryTarget × Error) (QueryTarget × O) :=
  match mapGet qt_name_to_tunnel query_target.name with
  | none =>
    .error (query_target, .sshTunnelNotFound jump_host_address query_target)
  | some db_tunnel =>
    match env.exec_q query_target db_tunnel with
    | .ok out => .ok (query_target, out)
    | .error e => .error (query_target, e)

/-- `QueryRunner::exec_over_tunnels` over the target list it is handed. -/
def exec_over_tunnels (env : ExecQEnv O) (jump_host_address : String)
    (query_targets : List QueryTarget) (qt_name_to_tunnel : List (String × Nat)) :
    List (QueryTarget × O) × List (QueryTarget × Error) :=
  partitionFold (query_targets.map (execOutcome env jump_host_address qt_name_to_tunnel))

/-- The error arm of `exec_multi`'s per-chunk match, with the same
`error.take().unwrap_or(Error::SshConnInit)` pattern as `query_multi`. -/
def execChunkErrors (e : Error) : List QueryTarget → List (QueryTarget × Error)
  | [] => []
  | qt :: rest => (qt, e) :: rest.map (fun q => (q, Error.sshConnInit))

/-- The per-chunk future of `exec_multi`.  On tunnel success the source
passes the full `query_targets` slice — not `query_targets_chunk` — to
`exec_over_tunnels` (query_runner.rs line 169), which this definition
reproduces. -/
def exec_chunk (env : ExecQEnv O) (jump_host_address : String)
    (query_targets query_targets_chunk : List QueryTarget) :
    List (QueryTarget × O) × List (QueryTarget × Error) :=
  match prepare_tunnels (env.tunnelEnv query_targets_chunk) query_targets_chunk with
  | .ok qt_name_to_tunnel =>
    exec_over_tunnels env jump_host_address query_targets qt_name_to_tunnel
  | .error e => ([], execChunkErrors e query_targets_chunk)

/-- `QueryRunner::exec_multi`. -/
def exec_multi (env : ExecQEnv O) (jump_host_address : String)
    (query_targets : List QueryTarget) (tunnels_per_ssh_connection : Nat) :
    Option (List (QueryTarget × O) × List (QueryTarget × Error)) :=
  (chunks tunnels_per_ssh_connection query_targets).map
    (fun cs => aggregateFold (exec_chunk env jump_host_address query_targets) cs)

/-! ### Name accounting lemmas -/

theorem queryOutcome_name (env : QueryEnv T) (jump_host_address sql_text : String)
    (m : List (String × Nat)) (qt : QueryTarget) :
    exceptName QueryResult.name QueryError.name
      (queryOutcome env jump_host_address sql_text m qt) = qt.name := by
  cases hm : mapGet m qt.name with
  | none => simp [queryOutcome, exceptName, hm]
  | some tun =>
      cases hx : env.exec qt tun sql_text with
      | ok rs => simp [queryOutcome, exceptName, hm, hx]
      | error e => simp [queryOutcome, exceptName, hm, hx]

theorem query_over_tunnels_names (env : QueryEnv T)
    (jump_host_address sql_text : String) (chunk : List QueryTarget)
    (m : List (String × Nat)) :
    (((query_over_tunnels env jump_host_address sql_text chunk m).1.map QueryResult.name :
        Multiset String) +
      ((query_over_tunnels env jump_host_address sql_text chunk m).2.map QueryError.name :
        Multiset String)) =
      (chunk.map QueryTarget.name : Multiset String) := by
  unfold query_over_tunnels
  rw [partitionFold_eq]
  rw [exceptOks_errs_map _ QueryResult.name QueryError.name]
  congr 1
  rw [List.map_map]
  refine List.map_congr_left (fun qt _ => ?_)
  exact queryOutcome_name env jump_host_address sql_text m qt

theorem chunkErrors_names (e : Error) (chunk : List QueryTarget) :
    (chunkErrors e chunk).map QueryError.name = chunk.map QueryTarget.name := by
  cases chunk with
  | nil => rfl
  | cons qt rest => simp [chunkErrors, List.map_map]

theorem query_chunk_names (env : QueryEnv T) (jump_host_address sql_text : String)
    (chunk : List QueryTarget) :
    (((query_chunk env jump_host_address sql_text chunk).1.map QueryResult.name :
        Multiset String) +
      ((query_chunk env jump_host_address sql_text chunk).2.map QueryError.name :
        Multiset String)) =
      (chunk.map QueryTarget.name : Multiset String) := by
  unfold query_chunk
  cases prepare_tunnels (env.tunnelEnv chunk) chunk with
  | ok m => exact query_over_tunnels_names env jump_host_address sql_text chunk m
  | error e => simp [chunkErrors_names]

theorem aggregateFold_names_from (f : γ → List α × List ε) (nf : α → String)
    (ng : ε → String) (cn : γ → List String) (cs : List γ)
    (hf : ∀ c ∈ cs, (((f c).1.map nf : Multiset String) + ((f c).2.map ng : Multiset String)) =
      (cn c : Multiset String)) :
    ∀ (a : List α) (b : List ε),
      (((cs.foldl (fun acc c => (acc.1 ++ (f c).1, acc.2 ++ (f c).2)) (a, b)).1.map nf :
          Multiset String) +
        ((cs.foldl (fun acc c => (acc.1 ++ (f c).1, acc.2 ++ (f c).2)) (a, b)).2.map ng :
          Multiset String)) =
        ((a.map nf : Multiset String) + (b.map ng : Multiset String)) +
          ((cs.map cn).flatten : Multiset String) := by
  induction cs with
  | nil => intro a b; simp
  | cons c cs ih =>
      intro a b
      have hc := hf c (List.mem_cons_self c cs)
      have ih' := ih (fun d hd => hf d (List.mem_cons_of_mem c hd)) (a ++ (f c).1) (b ++ (f c).2)
      simp only [List.foldl_cons] at ih' ⊢
      rw [ih']
      simp only [List.map_cons, List.flatten_cons, List.map_append, ← Multiset.coe_add]
      rw [← hc]
      abel

theorem aggregateFold_names (f : γ → List α × List ε) (nf : α → String)
    (ng : ε → String) (cn : γ → List String) (cs : List γ)
    (hf : ∀ c ∈ cs, (((f c).1.map nf : Multiset String) + ((f c).2.map ng : Multiset String)) =
      (cn c : Multiset String)) :
    (((aggregateFold f cs).1.map nf : Multiset String) +
      ((aggregateFold f cs).2.map ng : Multiset String)) =
      ((cs.map cn).flatten : Multiset String) := by
  have h := aggregateFold_names_from f nf ng cn cs hf [] []
  simpa [aggregateFold] using h

theorem query_multi_names (env : QueryEnv T) (jump_host_address sql_text : String)
    (query_targets : List QueryTarget) (n : Nat) :
    ∃ results errors,
      query_multi env jump_host_address sql_text query_targets (n + 1) =
        some (results, errors) ∧
      ((results.map QueryResult.name : Multiset String) +
        (errors.map QueryError.name : Multiset String)) =
        (query_targets.map QueryTarget.name : Multiset String) := by
  refine ⟨(aggregateFold (query_chunk env jump_host_address sql_text)
      (chunksGo n query_targets)).1,
    (aggregateFold (query_chunk env jump_host_address sql_text)
      (chunksGo n query_targets)).2, rfl, ?_⟩
  have h := aggregateFold_names (query_chunk env jump_host_address sql_text)
    QueryResult.name QueryError.name (fun c => c.map QueryTarget.name)
    (chunksGo n query_targets)
    (fun c _ => query_chunk_names env jump_host_address sql_text c)
  rw [h]
  congr 1
  rw [← List.map_flatten, chunksGo_flatten]

/-! ## Claims -/

/-- **C1.** For every batch run through `QueryRunner::query_multi`
(with target names unique within the batch and
`tunnels_per_ssh_connection >= 1`), the returned `(results, errors)`
pair is a partition of the input targets: every input target's name
appears in exactly one of the two sequences, the two name sets are
disjoint, and their union equals the set of input target names. -/
theorem query_multi_partition (env : QueryEnv T) (jump_host_address sql_text : String)
    (query_targets : List QueryTarget) (tunnels_per_ssh_connection : Nat)
    (htp : 1 ≤ tunnels_per_ssh_connection)
    (hnames : (query_targets.map QueryTarget.name).Nodup) :
    ∃ results errors,
      query_multi env jump_host_address sql_text query_targets
        tunnels_per_ssh_connection = some (results, errors) ∧
      (results.map QueryResult.name ++ errors.map QueryError.name).Perm
        (query_targets.map QueryTarget.name) ∧
      (∀ t ∈ query_targets,
        (results.map QueryResult.name ++ errors.map QueryError.name).count t.name = 1) ∧
      (results.map QueryResult.name).Disjoint (errors.map QueryError.name) ∧
      (∀ s, s ∈ query_targets.map QueryTarget.name ↔
        s ∈ results.map QueryResult.name ∨ s ∈ errors.map QueryError.name) := by
  obtain ⟨n, rfl⟩ : ∃ n, tunnels_per_ssh_connection = n + 1 :=
    ⟨tunnels_per_ssh_connection - 1, by omega⟩
  obtain ⟨results, errors, heq, hmult⟩ :=
    query_multi_names env jump_host_address sql_text query_targets n
  have hperm : (results.map QueryResult.name ++ errors.map QueryError.name).Perm
      (query_targets.map QueryTarget.name) := by
    rw [← Multiset.coe_eq_coe, ← Multiset.coe_add]
    exact hmult
  have hnodup : (results.map QueryResult.name ++ errors.map QueryError.name).Nodup :=
    hperm.nodup_iff.mpr hnames
  refine ⟨results, errors, heq, hperm, ?_, ?_, ?_⟩
  · intro t ht
    rw [hperm.count_eq]
    exact List.count_eq_one_of_mem hnames (List.mem_map_of_mem QueryTarget.name ht)
  · exact (List.nodup_append.mp hnodup).2.2
  · intro s
    rw [← List.mem_append]
    exact hperm.mem_iff.symm

/-! ### Concrete environments for witnesses and counterexamples -/

/-- A concrete schema credential. -/
def credW : DbSchemaCred := ⟨none, "user", "pass"⟩

/-- A concrete query target named `a`. -/
def targetA : QueryTarget := ⟨"a", "db-a", credW⟩

/-- A concrete query target named `b`. -/
def targetB : QueryTarget := ⟨"b", "db-b", credW⟩

/-- SSH behaviour where the session and every channel open. -/
def tunnelEnvOkW : TunnelEnv := ⟨.ok (), fun _ => .ok 0⟩

/-- Query behaviour where every tunnel opens and every query returns no
result sets. -/
def queryEnvW : QueryEnv Nat := ⟨fun _ => tunnelEnvOkW, fun _ _ _ => .ok []⟩

/-- Query behaviour where every chunk's SSH session fails to open with
`ssh_jumper` error code `7`. -/
def queryEnvC5 : QueryEnv Nat := ⟨fun _ => ⟨.error 7, fun _ => .ok 0⟩, fun _ _ _ => .ok []⟩

/-- Exec behaviour where every tunnel opens and target `a` returns
`10`, every other target `20`. -/
def execQEnvC2 : ExecQEnv Nat :=
  ⟨fun _ => tunnelEnvOkW, fun qt _ => .ok (if qt.name = "a" then 10 else 20)⟩

/-- C1 witness: the partition property at a concrete two-target batch. -/
theorem query_multi_partition_witness :
    ∃ results errors,
      query_multi queryEnvW "jh" "select 1" [targetA, targetB] 1 =
        some (results, errors) ∧
      (results.map QueryResult.name ++ errors.map QueryError.name).Perm
        ([targetA, targetB].map QueryTarget.name) ∧
      (∀ t ∈ [targetA, targetB],
        (results.map QueryResult.name ++ errors.map QueryError.name).count t.name = 1) ∧
      (results.map QueryResult.name).Disjoint (errors.map QueryError.name) ∧
      (∀ s, s ∈ [targetA, targetB].map QueryTarget.name ↔
        s ∈ results.map QueryResult.name ∨ s ∈ errors.map QueryError.name) :=
  query_multi_partition queryEnvW "jh" "select 1" [targetA, targetB] 1
    (by decide) (by decide)

/-- **C2 (failing-input evaluation).** `exec_multi` with two targets and
`tunnels_per_ssh_connection = 1` and both chunks' tunnels succeeding:
the source hands the full target slice to `exec_over_tunnels` for each
chunk, so each target appears twice across the aggregated pair (once as
a result and once as a spurious tunnel-not-found error), not exactly
once as the claim states. -/
theorem exec_multi_duplicates_targets :
    exec_multi execQEnvC2 "jh" [targetA, targetB] 1 =
      some ([(targetA, 10), (targetB, 20)],
            [(targetB, .sshTunnelNotFound "jh" targetB),
             (targetA, .sshTunnelNotFound "jh" targetA)]) ∧
    (([(targetA, (10 : Nat)), (targetB, 20)].map (fun p => p.1.name)) ++
      ([(targetB, Error.sshTunnelNotFound "jh" targetB),
        (targetA, Error.sshTunnelNotFound "jh" targetA)].map (fun p => p.1.name))).count
      "a" = 2 := by
  have hc : chunks 1 [targetA, targetB] = some [[targetA], [targetB]] := by
    simp [chunks]
  constructor
  · unfold exec_multi
    rw [hc]
    decide
  · decide

/-- **C5 (counterexample).** A chunk of two targets whose tunnel
session fails with `ssh_jumper` error `7`: the chunk contributes two
`QueryError`s, but the first carries the actual tunnel error while the
second carries the placeholder `Error::SshConnInit` — they do not all
carry the same underlying tunnel-initialization error. -/
theorem query_chunk_errors_differ :
    query_multi queryEnvC5 "jh" "select 1" [targetA, targetB] 2 =
      some ([], [⟨"a", .sshJumper 7⟩, ⟨"b", .sshConnInit⟩]) ∧
    Error.sshJumper 7 ≠ Error.sshConnInit := by
  have hc : chunks 2 [targetA, targetB] = some [[targetA, targetB]] := by
    simp [chunks]
  constructor
  · unfold query_multi
    rw [hc]
    decide
  · decide

/-- **C5 (amended).** If opening the tunnel session fails for a chunk
of `k` targets, the chunk contributes no results and exactly `k`
`QueryError`s, one per target of that chunk in order; the first error
carries the underlying tunnel-initialization error and every later one
carries `Error::SshConnInit`. -/
theorem query_chunk_tunnel_failure (env : QueryEnv T)
    (jump_host_address sql_text : String) (chunk : List QueryTarget) (e : Error)
    (h : prepare_tunnels (env.tunnelEnv chunk) chunk = .error e) :
    query_chunk env jump_host_address sql_text chunk =
      (([] : List (QueryResult T)), chunkErrors e chunk) ∧
    (chunkErrors e chunk).length = chunk.length ∧
    (chunkErrors e chunk).map QueryError.name = chunk.map QueryTarget.name ∧
    (∀ qe ∈ (chunkErrors e chunk).tail, qe.error = Error.sshConnInit) ∧
    (∀ qt rest, chunk = qt :: rest →
      chunkErrors e chunk =
        ⟨qt.name, e⟩ :: rest.map (fun q => ⟨q.name, Error.sshConnInit⟩)) := by
  refine ⟨by simp [query_chunk, h], ?_, chunkErrors_names e chunk, ?_, ?_⟩
  · cases chunk with
    | nil => rfl
    | cons qt rest => simp [chunkErrors]
  · cases chunk with
    | nil => simp [chunkErrors]
    | cons qt rest =>
        simp only [chunkErrors, List.tail_cons]
        intro qe hqe
        obtain ⟨q, _, rfl⟩ := List.mem_map.mp hqe
        rfl
  · intro qt rest hc
    subst hc
    rfl

/-- C5 witness: the amended chunk-failure behaviour at a concrete
two-target chunk. -/
theorem query_chunk_tunnel_failure_witness :
    query_chunk queryEnvC5 "jh" "select 1" [targetA, targetB] =
      (([] : List (QueryResult Nat)), chunkErrors (.sshJumper 7) [targetA, targetB]) ∧
    (chunkErrors (Error.sshJumper 7) [targetA, targetB]).length =
      [targetA, targetB].length ∧
    (chunkErrors (Error.sshJumper 7) [targetA, targetB]).map QueryError.name =
      [targetA, targetB].map QueryTarget.name ∧
    (∀ qe ∈ (chunkErrors (Error.sshJumper 7) [targetA, targetB]).tail,
      qe.error = Error.sshConnInit) ∧
    (∀ qt rest, [targetA, targetB] = qt :: rest →
      chunkErrors (Error.sshJumper 7) [targetA, targetB] =
        ⟨qt.name, Error.sshJumper 7⟩ ::
          rest.map (fun q => ⟨q.name, Error.sshConnInit⟩)) :=
  query_chunk_tunnel_failure queryEnvC5 "jh" "select 1" [targetA, targetB]
    (.sshJumper 7) rfl

/-- **C9.** `QueryRunner::new` accepts any `usize` for
`tunnels_per_ssh_connection`, including `0`, but `query_multi` and
`exec_multi` are total only for values `>= 1`: with `0` the
`slice::chunks` call panics (modelled as `none`) before any target is
processed, while every positive value yields a result. -/
theorem queryRunner_zero_tunnels_panics :
    (∀ a b : Nat, QueryRunner.new a b = ⟨a, b⟩) ∧
    (∀ (T : Type) (env : QueryEnv T) (jump_host_address sql_text : String)
      (query_targets : List QueryTarget),
      query_multi env jump_host_address sql_text query_targets 0 = none) ∧
    (∀ (O : Type) (env : ExecQEnv O) (jump_host_address : String)
      (query_targets : List QueryTarget),
      exec_multi env jump_host_address query_targets 0 = none) ∧
    (∀ (T : Type) (env : QueryEnv T) (jump_host_address sql_text : String)
      (query_targets : List QueryTarget) (n : Nat),
      (query_multi env jump_host_address sql_text query_targets (n + 1)).isSome = true) ∧
    (∀ (O : Type) (env : ExecQEnv O) (jump_host_address : String)
      (query_targets : List QueryTarget) (n : Nat),
      (exec_multi env jump_host_address query_targets (n + 1)).isSome = true) := by
  refine ⟨fun a b => rfl, fun T env j s q => rfl, fun O env j q => rfl,
    fun T env j s q n => rfl, fun O env j q n => rfl⟩

/-- **C10.** For an empty input target slice (and a usable
`tunnels_per_ssh_connection >= 1`), `query_multi` returns an empty
results sequence and an empty errors sequence, and performs zero
`prepare_tunnels` calls — no SSH session or tunnel is opened. -/
theorem query_multi_empty_targets (env : QueryEnv T)
    (jump_host_address sql_text : String) (tunnels_per_ssh_connection : Nat)
    (htp : 1 ≤ tunnels_per_ssh_connection) :
    query_multi env jump_host_address sql_text [] tunnels_per_ssh_connection =
      some ([], []) ∧
    sessionOpenCount tunnels_per_ssh_connection [] = some 0 := by
  obtain ⟨n, rfl⟩ : ∃ n, tunnels_per_ssh_connection = n + 1 :=
    ⟨tunnels_per_ssh_connection - 1, by omega⟩
  constructor
  · simp [query_multi, chunks, aggregateFold]
  · simp [sessionOpenCount, chunks]

/-- C10 witness: the empty batch at the default
`tunnels_per_ssh_connection` of 3. -/
theorem query_multi_empty_targets_witness :
    query_multi queryEnvW "jh" "select 1" [] 3 = some ([], []) ∧
    sessionOpenCount 3 [] = some 0 :=
  query_multi_empty_targets queryEnvW "jh" "select 1" 3 (by decide)

/-- Executor behaviour where the pool builds, the operation fails with
`Error::MySqlExecute 3`, and the disconnect fails with driver error 5. -/
def execEnvC3 : ExecEnv Nat :=
  ⟨.ok 0, fun p => (p, .error (.mySqlExecute 3)), fun _ => .error 5⟩

/-- Executor behaviour where everything succeeds and the operation
returns `42`. -/
def execEnvW : ExecEnv Nat := ⟨.ok 0, fun p => (p, .ok 42), fun _ => .ok ()⟩

/-- **C3 (counterexample).** When the caller-supplied operation fails
with `Error::MySqlExecute 3` and the disconnect also fails, `execute`
returns the disconnect failure (`Error::MySqlPoolDisconnect 5`), not
the operation's own error: the `?` on `pool.disconnect()` fires before
`result?` is consulted. -/
theorem execute_disconnect_error_replaces_op_error :
    execute execEnvC3 = .error (.mySqlPoolDisconnect 5) ∧
    Error.mySqlPoolDisconnect 5 ≠ Error.mySqlExecute 3 :=
  ⟨rfl, by decide⟩

/-- **C3 (amended).** In `SqlOverSsh::execute`, once the pool is built
and the operation has returned, a disconnect failure is returned as
`Error::MySqlPoolDisconnect` regardless of the operation's outcome
(replacing the operation's own error when both fail); the operation's
result — success or error — is the outcome only when the disconnect
succeeded. -/
theorem execute_error_ordering (env : ExecEnv O) (pool pool2 : Nat)
    (result : Except Error O)
    (hp : env.pool_init = .ok pool) (hop : env.op pool = (pool2, result)) :
    (∀ e, env.disconnect pool2 = .error e →
      execute env = .error (.mySqlPoolDisconnect e)) ∧
    (env.disconnect pool2 = .ok () → execute env = result) := by
  constructor
  · intro e hd
    simp [execute, hp, hop, hd]
  · intro hd
    cases result with
    | ok d => simp [execute, hp, hop, hd]
    | error e => simp [execute, hp, hop, hd]

/-- C3 witness: the amended ordering at a concrete environment. -/
theorem execute_error_ordering_witness :
    (∀ e, execEnvW.disconnect 0 = .error e →
      execute execEnvW = .error (.mySqlPoolDisconnect e)) ∧
    (execEnvW.disconnect 0 = .ok () → execute execEnvW = .ok 42) :=
  execute_error_ordering execEnvW 0 0 (.ok 42) rfl rfl

/-- **C4.** For every invocation of `SqlOverSsh::execute` in which the
pool is successfully built, the caller-supplied operation is invoked
exactly once and exactly one disconnect attempt is made before
`execute` returns, regardless of the operation's outcome; if pool
construction fails, `execute` returns that error without invoking the
operation or attempting a disconnect.  (`executeTrace` is `execute`
instrumented with call counters; its result component coincides with
`execute`.) -/
theorem execute_pool_lifecycle (env : ExecEnv O) :
    (executeTrace env).result = execute env ∧
    (env.pool_init.isOk = true →
      (executeTrace env).op_calls = 1 ∧ (executeTrace env).disconnect_attempts = 1) ∧
    (∀ e, env.pool_init = .error e →
      (executeTrace env).result = .error e ∧
      (executeTrace env).op_calls = 0 ∧ (executeTrace env).disconnect_attempts = 0) := by
  refine ⟨?_, ?_, ?_⟩
  · cases hp : env.pool_init with
    | error e => simp [execute, executeTrace, hp]
    | ok pool =>
        cases hop : env.op pool with
        | mk pool2 result =>
            cases hd : env.disconnect pool2 with
            | error e => simp [execute, executeTrace, hp, hop, hd]
            | ok u =>
                cases result with
                | ok d => simp [execute, executeTrace, hp, hop, hd]
                | error e => simp [execute, executeTrace, hp, hop, hd]
  · intro hok
    cases hp : env.pool_init with
    | error e =>
        rw [hp] at hok
        simp [Except.isOk, Except.toBool] at hok
    | ok pool =>
        cases hop : env.op pool with
        | mk pool2 result =>
            cases hd : env.disconnect pool2 with
            | error e => simp [executeTrace, hp, hop, hd]
            | ok u =>
                cases result with
                | ok d => simp [executeTrace, hp, hop, hd]
                | error e => simp [executeTrace, hp, hop, hd]
  · intro e hp
    simp [executeTrace, hp]

/-- C4 witness: the lifecycle counters at a concrete successful
environment. -/
theorem execute_pool_lifecycle_witness :
    (executeTrace execEnvW).op_calls = 1 ∧
    (executeTrace execEnvW).disconnect_attempts = 1 :=
  (execute_pool_lifecycle execEnvW).2.1 rfl

/-- **C6.** `query_result_fetch` appends one `ResultSet` (with its
`affected_rows`, `warning_count`, `info` and decoded row values) per
pending result set, in the order the result sets are received,
terminating when none remains; if decoding the rows of any result set
fails, the whole per-target assembly returns
`Error::QueryResultSetFetch` and all earlier assembled result sets are
discarded. -/
theorem query_result_fetch_assembly (query_target_name : String) :
    (∀ pending : List (PendingResultSet T),
      (∀ p ∈ pending, p.collect.isOk = true) →
      query_result_fetch query_target_name pending =
        .ok ⟨query_target_name, pending.map collectedResultSet⟩) ∧
    (∀ (l1 l2 : List (PendingResultSet T)) (p : PendingResultSet T) (e : Nat),
      (∀ q ∈ l1, q.collect.isOk = true) → p.collect = .error e →
      query_result_fetch query_target_name (l1 ++ p :: l2) =
        .error (.queryResultSetFetch e)) := by
  have hok : ∀ (pending : List (PendingResultSet T)) (acc : List (ResultSet T)),
      (∀ p ∈ pending, p.collect.isOk = true) →
      fetchLoop pending acc = .ok (acc ++ pending.map collectedResultSet) := by
    intro pending
    induction pending with
    | nil => intro acc _; simp [fetchLoop]
    | cons p rest ih =>
        intro acc hall
        cases hc : p.collect with
        | error e =>
            have := hall p (List.mem_cons_self p rest)
            rw [hc] at this
            simp [Except.isOk, Except.toBool] at this
        | ok values =>
            simp only [fetchLoop, hc]
            rw [ih _ (fun q hq => hall q (List.mem_cons_of_mem p hq))]
            simp [collectedResultSet, hc, Except.toOption]
  constructor
  · intro pending hall
    rw [query_result_fetch, hok pending [] hall]
    rfl
  · intro l1 l2 p e hall hp
    have herr : ∀ (l1 : List (PendingResultSet T)) (acc : List (ResultSet T)),
        (∀ q ∈ l1, q.collect.isOk = true) →
        fetchLoop (l1 ++ p :: l2) acc = .error (.queryResultSetFetch e) := by
      intro l1
      induction l1 with
      | nil => intro acc _; simp [fetchLoop, hp]
      | cons q rest ih =>
          intro acc hall
          cases hq : q.collect with
          | error e2 =>
              have := hall q (List.mem_cons_self q rest)
              rw [hq] at this
              simp [Except.isOk, Except.toBool] at this
          | ok values =>
              simp only [List.cons_append, fetchLoop, hq]
              exact ih _ (fun r hr => hall r (List.mem_cons_of_mem q hr))
    rw [query_result_fetch, herr l1 [] hall]

/-- A concrete pending result set whose decode succeeds. -/
def pendingOkW : PendingResultSet Nat := ⟨.ok [1, 2], 2, 0, "info"⟩

/-- C6 witness: assembly of one successfully decoded result set. -/
theorem query_result_fetch_assembly_witness :
    query_result_fetch "t" [pendingOkW] =
      .ok ⟨"t", [pendingOkW].map collectedResultSet⟩ :=
  (query_result_fetch_assembly "t").1 [pendingOkW]
    (by intro p hp; simp at hp; subst hp; rfl)

/-- **C7.** `SshTunnelManager::prepare_tunnels` succeeds only if the
session opened and every target in the chunk obtained a forwarding
endpoint; on success the returned map contains an entry for each
target's name, and on any single endpoint failure the whole call
returns an error — no partial map is handed to the caller. -/
theorem prepare_tunnels_all_or_nothing (env : TunnelEnv)
    (query_targets : List QueryTarget) :
    ((prepare_tunnels env query_targets).isOk = true ↔
      (env.session_result.isOk = true ∧
        ∀ t ∈ query_targets, (env.channel t).isOk = true)) ∧
    (∀ m, prepare_tunnels env query_targets = .ok m →
      ∀ t ∈ query_targets, (mapGet m t.name).isSome = true) := by
  constructor
  · cases hs : env.session_result with
    | error e =>
        simp only [prepare_tunnels, hs]
        simp [Except.isOk, Except.toBool]
    | ok u =>
        simp only [prepare_tunnels, hs]
        rw [tunnelsFold_isOk]
        simp [Except.isOk, Except.toBool]
  · intro m hm
    cases hs : env.session_result with
    | error e => rw [prepare_tunnels, hs] at hm; cases hm
    | ok u =>
        rw [prepare_tunnels, hs] at hm
        exact (tunnelsFold_complete env query_targets [] m hm).2

/-- C7 witness: a concrete one-target chunk whose session and channel
open, with the target's endpoint present in the returned map. -/
theorem prepare_tunnels_all_or_nothing_witness :
    (prepare_tunnels tunnelEnvOkW [targetA]).isOk = true ∧
    (mapGet [("a", 0)] targetA.name).isSome = true :=
  ⟨((prepare_tunnels_all_or_nothing tunnelEnvOkW [targetA]).1).mpr
      ⟨rfl, by intro t ht; rfl⟩,
    (prepare_tunnels_all_or_nothing tunnelEnvOkW [targetA]).2 [("a", 0)] rfl
      targetA (by simp)⟩

/-- **C8 (counterexample).** The pool built by `db_pool_initialize` is
constrained by `PoolConstraints::new(1, 10)`: the maximum is 10, which
is not a single-digit number of connections. -/
theorem db_pool_constraints_max_ten :
    db_pool_opts_init (.ok ("127.0.0.1", 3307)) credW =
      .ok ⟨"127.0.0.1", 3307, none, "user", "pass", (1, 10)⟩ ∧
    ¬((⟨"127.0.0.1", 3307, none, "user", "pass",
        (1, 10)⟩ : DbOpts).pool_constraints.2 ≤ 9) :=
  ⟨rfl, by decide⟩

/-- **C8 (amended).** Every connection pool built by
`db_pool_initialize` is configured with bounded size constraints of
minimum 1 connection and maximum 10 connections — bounded, never
unbounded, but the maximum is 10 rather than a single-digit number. -/
theorem db_pool_constraints_bounded (open_tunnel : Except Nat (String × Nat))
    (cred : DbSchemaCred) (ip : String) (port : Nat)
    (h : open_tunnel = .ok (ip, port)) :
    ∃ opts, db_pool_opts_init open_tunnel cred = .ok opts ∧
      opts.pool_constraints = (1, 10) ∧
      1 ≤ opts.pool_constraints.1 ∧ opts.pool_constraints.2 ≤ 10 := by
  subst h
  refine ⟨⟨ip, port, cred.schema_name, cred.username, cred.password, (1, 10)⟩,
    ?_, rfl, Nat.le_refl 1, Nat.le_refl 10⟩
  simp [db_pool_opts_init, poolConstraintsNew]

/-- C8 witness: the amended bound at a concrete tunnel and credential. -/
theorem db_pool_constraints_bounded_witness :
    ∃ opts, db_pool_opts_init (.ok ("127.0.0.1", 3307)) credW = .ok opts ∧
      opts.pool_constraints = (1, 10) ∧
      1 ≤ opts.pool_constraints.1 ∧ opts.pool_constraints.2 ≤ 10 :=
  db_pool_constraints_bounded (.ok ("127.0.0.1", 3307)) credW "127.0.0.1" 3307 rfl

end MysqlAsyncSupport
